import Mathlib

/-!
Shallow embedding of `src/co2.js` (joellord/atlas-co2): the carbon
estimation pipeline that turns Atlas cluster metadata and per-process
telemetry into a fleet-wide emissions estimate.

JavaScript numbers are modelled as exact rationals extended with a `nan`
element (`JSNum`).  Arithmetic on `num` values is exact rational
arithmetic (IEEE rounding is abstracted away); any operation touching
`nan` yields `nan`, as in JavaScript.  Division by zero: the only
zero-denominator division reachable in this program is `0 / 0` (the
average of an empty datapoint list, where the reduce starts at 0), which
is `NaN` in JavaScript; infinite values are therefore not modelled and a
zero denominator is mapped to `nan`.

Thrown exceptions (property access on `undefined`, `reduce` on an empty
array) are modelled by `Option`: `none` is "the computation throws".
-/

/-- JavaScript number: an exact rational or NaN. -/
inductive JSNum where
  | nan : JSNum
  | num : ℚ → JSNum
  deriving DecidableEq, Repr

namespace JSNum

/-- JS addition: NaN-absorbing rational addition. -/
def add : JSNum → JSNum → JSNum
  | num a, num b => num (a + b)
  | _, _ => nan

/-- JS multiplication: NaN-absorbing rational multiplication. -/
def mul : JSNum → JSNum → JSNum
  | num a, num b => num (a * b)
  | _, _ => nan

/-- JS division; a zero denominator gives `nan` (in this program only
`0 / 0` is reachable with denominator zero, and `0 / 0` is `NaN` in JS). -/
def div : JSNum → JSNum → JSNum
  | num a, num b => if b = 0 then nan else num (a / b)
  | _, _ => nan

instance : Add JSNum := ⟨add⟩

instance : Mul JSNum := ⟨mul⟩

instance : Div JSNum := ⟨div⟩

end JSNum

/-! ### Telemetry measurements (`METRICS`, lines 13-27, 36-62 of co2.js) -/

/-- One timestamped sample of a metric series (the code reads only `value`). -/
structure Datapoint where
  timestamp : String
  value : JSNum
  deriving DecidableEq, Repr

/-- One named metric series in a measurements response. -/
structure Measurement where
  name : String
  dataPoints : List Datapoint
  deriving DecidableEq, Repr

/-- The measurements payload returned for one process. -/
structure MeasurementSet where
  measurements : List Measurement
  deriving DecidableEq, Repr

/-- `METRICS.MEMORY.available` (line 15). -/
def memoryAvailableMetric : String := "SYSTEM_MEMORY_AVAILABLE"

/-- `Object.values(METRICS.CPU)` in insertion order (lines 18-25). -/
def cpuMetricNames : List String :=
  ["SYSTEM_NORMALIZED_CPU_USER", "SYSTEM_NORMALIZED_CPU_KERNEL",
   "SYSTEM_NORMALIZED_CPU_NICE", "SYSTEM_NORMALIZED_CPU_IOWAIT",
   "SYSTEM_NORMALIZED_CPU_IRQ", "SYSTEM_NORMALIZED_CPU_SOFTIRQ",
   "SYSTEM_NORMALIZED_CPU_GUEST", "SYSTEM_NORMALIZED_CPU_STEAL"]

/-- `getMeasurement` (lines 36-38): find the first series with the given
name and take its `dataPoints`; if `find` yields `undefined` the member
access throws, modelled by `none`. -/
def getMeasurement (ms : MeasurementSet) (metric : String) : Option (List Datapoint) :=
  (ms.measurements.find? (fun m => m.name == metric)).map (·.dataPoints)

/-- `getDatapointsAvg` (lines 40-45): sum of the values (reduce with
initial value 0) divided by the number of datapoints.  On an empty list
this is `0 / 0`, i.e. `nan`. -/
def getDatapointsAvg (datapoints : List Datapoint) : JSNum :=
  let values := datapoints.map (·.value)
  let total := values.foldl (· + ·) (JSNum.num 0)
  let avg := total / JSNum.num (datapoints.length : ℚ)
  avg

/-- `getMemoryUsage` (lines 47-51). -/
def getMemoryUsage (measurements : MeasurementSet) : Option JSNum :=
  (getMeasurement measurements memoryAvailableMetric).map getDatapointsAvg

/-- The `for` loop of `getCpuUsage` (lines 55-60): walk the metric names
accumulating `totalUsage`; a missing series throws (`none`). -/
def cpuUsageLoop (ms : MeasurementSet) : List String → JSNum → Option JSNum
  | [], total => some total
  | n :: rest, total =>
    match getMeasurement ms n with
    | none => none
    | some dps => cpuUsageLoop ms rest (total + getDatapointsAvg dps)

/-- `getCpuUsage` (lines 53-62): sum of the eight per-metric averages. -/
def getCpuUsage (ms : MeasurementSet) : Option JSNum :=
  cpuUsageLoop ms cpuMetricNames (JSNum.num 0)

/-! ### String operations used by the resolution policy (lines 107-129) -/

/-- Model of JavaScript `String.prototype.toUpperCase` restricted to the
ASCII range (the provider and region identifiers this program compares
are ASCII): lower-case ASCII letters are mapped to the corresponding
upper-case letter, every other character is unchanged. -/
def upperChar : Char → Char
  | 'a' => 'A' | 'b' => 'B' | 'c' => 'C' | 'd' => 'D' | 'e' => 'E'
  | 'f' => 'F' | 'g' => 'G' | 'h' => 'H' | 'i' => 'I' | 'j' => 'J'
  | 'k' => 'K' | 'l' => 'L' | 'm' => 'M' | 'n' => 'N' | 'o' => 'O'
  | 'p' => 'P' | 'q' => 'Q' | 'r' => 'R' | 's' => 'S' | 't' => 'T'
  | 'u' => 'U' | 'v' => 'V' | 'w' => 'W' | 'x' => 'X' | 'y' => 'Y'
  | 'z' => 'Z'
  | c => c

/-- JS `s.toUpperCase()`. -/
def jsToUpper (s : String) : String := ⟨s.data.map upperChar⟩

/-- Is the character one of the separators removed by
`replace(/(_|-| )/g, "")` (line 118)? -/
def isSepChar (c : Char) : Bool := c == '_' || c == '-' || c == ' '

/-- JS `s.replace(/(_|-| )/g, "")`: delete every underscore, hyphen and
space. -/
def stripSeparators (s : String) : String := ⟨s.data.filter (fun c => !isSepChar c)⟩

/-- The region normal form the lookup effectively compares: upper-case
the spelling, then strip separators (line 108 composed with line 118). -/
def normalizeRegion (s : String) : String := stripSeparators (jsToUpper s)

/-- Numeric value of a list of decimal digit characters. -/
def digitsVal (cs : List Char) : ℚ :=
  ((cs.foldl (fun a c => a * 10 + (c.toNat - 48)) 0 : ℕ) : ℚ)

/-- Model of JS `parseFloat` restricted to plain decimal literals: an
optional sign, integer digits, optionally a dot and fractional digits,
possibly followed by trailing characters which `parseFloat` ignores
(exponents and special values do not occur in the CSV columns this
program parses).  A string whose head is not a decimal literal parses
to `NaN`. -/
def jsParseFloat (s : String) : JSNum :=
  let signRest : ℚ × List Char :=
    match s.data with
    | '-' :: cs => (-1, cs)
    | '+' :: cs => (1, cs)
    | cs => (1, cs)
  let intDigits := signRest.2.takeWhile Char.isDigit
  let afterInt := signRest.2.dropWhile Char.isDigit
  let fracDigits :=
    match afterInt with
    | '.' :: t => t.takeWhile Char.isDigit
    | _ => []
  if intDigits = [] ∧ fracDigits = [] then JSNum.nan
  else JSNum.num (signRest.1 * (digitsVal intDigits + digitsVal fracDigits / 10 ^ fracDigits.length))

/-! ### Reference CSV rows (lines 8-9) and the resolution policy (lines 107-129) -/

/-- One row of `cloudProviders_datacenters.csv` as accessed by the code:
column 0 is the provider, column 1 the region, column 2 the join key
into `CI_aggregated.csv`, column 6 the PUE override. -/
structure CloudProviderRow where
  provider : String
  region : String
  ciKey : String
  pueOverride : String
  deriving DecidableEq, Repr

/-- One row of `CI_aggregated.csv` as accessed by the code: column 0 is
the key, column 4 the carbon intensity in gCO2e/kWh. -/
structure CIRow where
  key : String
  gCO2PerKwh : String
  deriving DecidableEq, Repr

/-- Lines 110-113: sequential reassignment of the provider-default PUE
(the argument is the already upper-cased provider name). -/
def defaultPUE (providerName : String) : ℚ :=
  let PUE : ℚ := 1.67
  let PUE := if providerName = "GCP" then 1.11 else PUE
  let PUE := if providerName = "AZURE" then 1.125 else PUE
  let PUE := if providerName = "AWS" then 1.2 else PUE
  PUE

/-- Lines 117-119: find the first datacenter row whose upper-cased
provider equals the (already upper-cased) provider name and whose
upper-cased, separator-stripped region equals the separator-stripped
(already upper-cased) region name. -/
def findDatacenter (cloudProviders : List CloudProviderRow)
    (providerName regionName : String) : Option CloudProviderRow :=
  cloudProviders.find? (fun c =>
    jsToUpper c.provider == providerName &&
      stripSeparators (jsToUpper c.region) == stripSeparators regionName)

/-- Lines 107-129: resolve (effectivePUE, effectiveCarbonIntensity) for
a cluster's raw provider and region names against the two CSV tables. -/
def resolvePueCi (cloudProviders : List CloudProviderRow) (ciAggregated : List CIRow)
    (rawProviderName rawRegionName : String) : JSNum × JSNum :=
  let providerName := jsToUpper rawProviderName
  let regionName := jsToUpper rawRegionName
  let PUE : JSNum := JSNum.num (defaultPUE providerName)
  match findDatacenter cloudProviders providerName regionName with
  | none => (PUE, JSNum.num 475)
  | some cloudProvider =>
    let PUE := if cloudProvider.pueOverride ≠ "" then jsParseFloat cloudProvider.pueOverride else PUE
    let ci := ciAggregated.find? (fun ci => ci.key == cloudProvider.ciKey)
    let gCO2ekWh := match ci with
      | some ci => jsParseFloat ci.gCO2PerKwh
      | none => JSNum.num 475
    (PUE, gCO2ekWh)

/-! ### Clusters and processes (lines 28-32, 100-148) -/

/-- `GRANULARITY_PARAMS` (lines 28-32). -/
structure GranularityParams where
  granularity : String
  period : String
  runningTimeHours : ℚ
  deriving DecidableEq, Repr

/-- The fixed configuration constant of lines 28-32. -/
def GRANULARITY_PARAMS : GranularityParams :=
  { granularity := "PT5M", period := "P1D", runningTimeHours := 24 }

/-- The `providerSettings` object of a cluster as read by the code. -/
structure ProviderSettings where
  providerName : String
  regionName : String
  instanceSizeName : String
  deriving DecidableEq, Repr

/-- A cluster as returned by the clusters endpoint, restricted to the
fields the code reads. -/
structure Cluster where
  name : String
  providerSettings : ProviderSettings
  diskSizeGB : JSNum
  mongoURI : String
  deriving DecidableEq, Repr

/-- The per-process record pushed onto `processes` (lines 137-144). -/
structure Process where
  id : String
  cluster : String
  providerSettings : ProviderSettings
  diskSizeGb : JSNum
  PUE : JSNum
  gCO2ekWh : JSNum
  deriving DecidableEq, Repr

/-- JS `s.replace(pat, "")` for a plain (non-regex) pattern: delete the
first occurrence of `pat`, leave the rest unchanged. -/
def replaceFirst (s pat : String) : String :=
  match s.splitOn pat with
  | [] => s
  | [t] => t
  | t₁ :: t₂ :: rest => t₁ ++ t₂ ++ rest.foldl (fun acc t => acc ++ pat ++ t) ""

/-- Line 135: `c.mongoURI.replace("mongodb://", "").split(",")`. -/
def clusterProcessIds (c : Cluster) : List String :=
  (replaceFirst c.mongoURI "mongodb://").splitOn ","

/-- Lines 100-148 for a single cluster: an M0/M2/M5 cluster is skipped
(`return` before any process is pushed); otherwise one `Process` per
comma-separated mongoURI host is pushed, carrying the resolved PUE and
carbon intensity. -/
def processesOfCluster (cloudProviders : List CloudProviderRow) (ciAggregated : List CIRow)
    (c : Cluster) : List Process :=
  let instanceSize := c.providerSettings.instanceSizeName
  if instanceSize = "M0" ∨ instanceSize = "M2" ∨ instanceSize = "M5" then []
  else
    let resolved := resolvePueCi cloudProviders ciAggregated
      c.providerSettings.providerName c.providerSettings.regionName
    (clusterProcessIds c).map (fun p =>
      { id := p, cluster := c.name, providerSettings := c.providerSettings,
        diskSizeGb := c.diskSizeGB, PUE := resolved.1, gCO2ekWh := resolved.2 })

/-- The full `processes` array accumulated over all clusters
(lines 98-148, pushes happen in cluster order). -/
def allProcesses (cloudProviders : List CloudProviderRow) (ciAggregated : List CIRow)
    (clusters : List Cluster) : List Process :=
  (clusters.map (processesOfCluster cloudProviders ciAggregated)).flatten

/-! ### Hardware profiles and per-process usage (lines 152-177) -/

/-- One entry of `hardwareSpec.json`: CPU core count and memory capacity
in GB for one (instance size, provider) pair. -/
structure HardwareEntry where
  CPU : ℚ
  memory : ℚ
  deriving DecidableEq, Repr

/-- The `hardwareSpec.json` object: instance size name to provider name
to hardware entry, modelled as nested association lists. -/
def HardwareSpec : Type := List (String × List (String × HardwareEntry))

/-- Line 158: `hardwareSpec[instanceSizeName][providerName]`; a missing
key at either level makes the subsequent member access throw (`none`). -/
def lookupHardware (hardwareSpec : HardwareSpec) (instanceSizeName providerName : String) :
    Option HardwareEntry :=
  match hardwareSpec.find? (fun e => e.1 == instanceSizeName) with
  | none => none
  | some byProvider => (byProvider.2.find? (fun e => e.1 == providerName)).map (·.2)

/-- The record built for each process at lines 163-176. -/
structure ProcessUsage where
  processId : String
  clusterName : String
  providerName : String
  instanceSizeName : String
  region : String
  memoryUsageGb : JSNum
  cpuUsage : JSNum
  diskSizeGb : JSNum
  nCpu : ℚ
  memoryAvail : ℚ
  PUE : JSNum
  gCO2ekWh : JSNum
  deriving DecidableEq, Repr

/-- Lines 152-177 for one process, given the measurements fetched for
it: average the memory-available series, convert to GB, sum the CPU
sub-metric averages, look up the hardware profile, and assemble the
usage record.  Any thrown lookup failure is `none`. -/
def processEstimate (hardwareSpec : HardwareSpec) (p : Process)
    (measurements : MeasurementSet) : Option ProcessUsage := do
  let memoryUsage ← getMemoryUsage measurements
  let memoryUsageGb := memoryUsage / JSNum.num 1000000
  let cpuUsage ← getCpuUsage measurements
  let hardware ← lookupHardware hardwareSpec
    p.providerSettings.instanceSizeName p.providerSettings.providerName
  some { processId := p.id, clusterName := p.cluster,
         providerName := jsToUpper p.providerSettings.providerName,
         instanceSizeName := p.providerSettings.instanceSizeName,
         region := p.providerSettings.regionName,
         memoryUsageGb := memoryUsageGb, cpuUsage := cpuUsage,
         diskSizeGb := p.diskSizeGb, nCpu := hardware.CPU,
         memoryAvail := hardware.memory, PUE := p.PUE, gCO2ekWh := p.gCO2ekWh }

/-! ### Energy model and fleet total (lines 186-191) -/

/-- Line 187: the per-process energy/emissions value. -/
def energyOf (p : ProcessUsage) : JSNum :=
  JSNum.num GRANULARITY_PARAMS.runningTimeHours *
      (JSNum.num p.nCpu * JSNum.num 12.4 * p.cpuUsage +
        JSNum.num p.memoryAvail * JSNum.num 0.3725 +
        p.diskSizeGb * JSNum.num 0.001) *
    p.PUE * JSNum.num 0.001 * p.gCO2ekWh

/-- Lines 186-189: `processUsage.map(...)`. -/
def energies (processUsage : List ProcessUsage) : List JSNum :=
  processUsage.map energyOf

/-- Line 191: `energies.reduce((a, b) => a + b)`.  JS `reduce` without
an initial value throws a `TypeError` on an empty array (`none`). -/
def totalCarbon (energies : List JSNum) : Option JSNum :=
  match energies with
  | [] => none
  | e :: rest => some (rest.foldl (· + ·) e)

/-- Line 187 read over exact rationals: the energy value as a function
of the seven numeric inputs. -/
def energyFormula (t nCpu cpuUsage memoryAvail diskSizeGb PUE gCO2ekWh : ℚ) : ℚ :=
  t * (nCpu * 12.4 * cpuUsage + memoryAvail * 0.3725 + diskSizeGb * 0.001) *
    PUE * 0.001 * gCO2ekWh

/-! ### Spec-side definitions (refinement targets) -/

/-- The energy formula exactly as the specification words it (§4.4):
`energy_gCO2 = runningTimeHours × (n_c × 12.4 × u_c + memoryCapacityGb
× 0.3725 + diskSizeGb × 0.001) × effectivePUE × 0.001 ×
effectiveCarbonIntensity`, over exact rationals.  Refinement target for
the code's `energyOf`. -/
def specEnergy (runningTimeHours n_c u_c memoryCapacityGb diskSizeGb
    effectivePUE effectiveCarbonIntensity : ℚ) : ℚ :=
  runningTimeHours *
      (n_c * 12.4 * u_c + memoryCapacityGb * 0.3725 + diskSizeGb * 0.001) *
    effectivePUE * 0.001 * effectiveCarbonIntensity

/-- The datacenter lookup as the specification words it (§4.3 step 2):
"search DatacenterRecord sequence for a record whose provider matches
(case-insensitive, exact) AND whose normalized region matches.  First
match wins", written as explicit first-match recursion over the table
(case-insensitive comparison rendered as equality after ASCII
upper-casing).  Refinement target for the code's `findDatacenter`. -/
def specFirstMatch (table : List CloudProviderRow) (providerName regionName : String) :
    Option CloudProviderRow :=
  match table with
  | [] => none
  | c :: rest =>
    if jsToUpper c.provider = jsToUpper providerName ∧
        normalizeRegion c.region = normalizeRegion regionName
    then some c
    else specFirstMatch rest providerName regionName

/-! ### Lemmas -/

namespace JSNum

@[simp] theorem num_add_num (a b : ℚ) : num a + num b = num (a + b) := rfl

@[simp] theorem num_mul_num (a b : ℚ) : num a * num b = num (a * b) := rfl

@[simp] theorem nan_add (x : JSNum) : nan + x = nan := by cases x <;> rfl

@[simp] theorem add_nan (x : JSNum) : x + nan = nan := by cases x <;> rfl

@[simp] theorem nan_mul (x : JSNum) : nan * x = nan := by cases x <;> rfl

@[simp] theorem mul_nan (x : JSNum) : x * nan = nan := by cases x <;> rfl

@[simp] theorem zero_add_js (x : JSNum) : num 0 + x = x := by
  cases x <;> simp

end JSNum

theorem upperChar_idem (c : Char) : upperChar (upperChar c) = upperChar c := by
  generalize h : upperChar c = d
  unfold upperChar at h
  split at h <;> subst h
  all_goals first | decide | (unfold upperChar; split <;> simp_all)

theorem isSepChar_upperChar (c : Char) : isSepChar (upperChar c) = isSepChar c := by
  unfold upperChar
  split <;> rfl

theorem map_upperChar_idem (l : List Char) :
    (l.map upperChar).map upperChar = l.map upperChar := by
  induction l with
  | nil => rfl
  | cons c t ih => simp [upperChar_idem, ih]

theorem map_upperChar_filter (l : List Char) :
    ((l.map upperChar).filter (fun c => !isSepChar c)).map upperChar
      = ((l.map upperChar).map upperChar).filter (fun c => !isSepChar c) := by
  induction l with
  | nil => rfl
  | cons c t ih =>
    by_cases h : isSepChar (upperChar c) <;>
      simp [List.filter_cons, h, isSepChar_upperChar, upperChar_idem, ih]

theorem normalizeRegion_idem (s : String) :
    normalizeRegion (normalizeRegion s) = normalizeRegion s := by
  unfold normalizeRegion stripSeparators jsToUpper
  apply congrArg
  show (((s.data.map upperChar).filter (fun c => !isSepChar c)).map upperChar).filter
      (fun c => !isSepChar c)
    = (s.data.map upperChar).filter (fun c => !isSepChar c)
  rw [map_upperChar_filter, map_upperChar_idem, List.filter_filter]
  simp

theorem getDatapointsAvg_nil : getDatapointsAvg [] = JSNum.nan := by
  simp [getDatapointsAvg, JSNum.div, HDiv.hDiv, Div.div]

theorem cpuUsageLoop_nan (ms : MeasurementSet) (names : List String)
    (h : ∀ n ∈ names, (getMeasurement ms n).isSome) :
    cpuUsageLoop ms names JSNum.nan = some JSNum.nan := by
  induction names with
  | nil => rfl
  | cons m rest ih =>
    have h1 := h m (by simp)
    cases hm : getMeasurement ms m with
    | none => rw [hm] at h1; simp at h1
    | some dps =>
      simp only [cpuUsageLoop, hm, JSNum.nan_add]
      exact ih (fun n hn => h n (by simp [hn]))

theorem cpuUsageLoop_empty_series (ms : MeasurementSet) (names : List String)
    (acc : JSNum) (n : String) (hn : n ∈ names)
    (hempty : getMeasurement ms n = some [])
    (hall : ∀ m ∈ names, (getMeasurement ms m).isSome) :
    cpuUsageLoop ms names acc = some JSNum.nan := by
  induction names generalizing acc with
  | nil => cases hn
  | cons m rest ih =>
    rcases List.mem_cons.mp hn with h | h
    · subst h
      simp only [cpuUsageLoop, hempty, getDatapointsAvg_nil, JSNum.add_nan]
      exact cpuUsageLoop_nan ms rest (fun m hm => hall m (by simp [hm]))
    · have h1 := hall m (by simp)
      cases hm : getMeasurement ms m with
      | none => rw [hm] at h1; simp at h1
      | some dps =>
        simp only [cpuUsageLoop, hm]
        exact ih _ h (fun x hx => hall x (List.mem_cons_of_mem m hx))

theorem cpuUsageLoop_none (ms : MeasurementSet) (names : List String) (acc : JSNum)
    (n : String) (hn : n ∈ names) (hmiss : getMeasurement ms n = none) :
    cpuUsageLoop ms names acc = none := by
  induction names generalizing acc with
  | nil => cases hn
  | cons m rest ih =>
    rcases List.mem_cons.mp hn with h | h
    · subst h; simp [cpuUsageLoop, hmiss]
    · cases hm : getMeasurement ms m with
      | none => simp [cpuUsageLoop, hm]
      | some dps =>
        simp only [cpuUsageLoop, hm]
        exact ih _ h

/-- C7: a cluster whose instance size name is exactly "M0", "M2" or "M5"
materializes no processes at all, regardless of its provider, region,
disk size or connection endpoints. -/
theorem small_cluster_contributes_no_processes (cloudProviders : List CloudProviderRow)
    (ciAggregated : List CIRow) (c : Cluster)
    (h : c.providerSettings.instanceSizeName = "M0" ∨
      c.providerSettings.instanceSizeName = "M2" ∨
      c.providerSettings.instanceSizeName = "M5") :
    processesOfCluster cloudProviders ciAggregated c = [] := by
  unfold processesOfCluster
  rw [if_pos h]

theorem small_cluster_contributes_no_processes_witness :
    processesOfCluster [] []
      { name := "cluster0",
        providerSettings :=
          { providerName := "AWS", regionName := "US_EAST_1", instanceSizeName := "M0" },
        diskSizeGB := JSNum.num 10,
        mongoURI := "mongodb://host1:27017,host2:27017" } = [] :=
  small_cluster_contributes_no_processes [] [] _ (Or.inl rfl)

/-- C6: the fleet total is the sum of all per-process energy values, and
reducing an empty energy list throws an error instead of returning zero. -/
theorem fleet_total_sum_or_error (processUsage : List ProcessUsage) :
    totalCarbon (energies []) = none ∧
    (processUsage ≠ [] →
      totalCarbon (energies processUsage)
        = some ((energies processUsage).foldl (· + ·) (JSNum.num 0))) := by
  constructor
  · rfl
  · intro h
    match processUsage with
    | [] => exact absurd rfl h
    | p :: rest => simp [energies, totalCarbon, List.foldl_cons]

theorem fleet_total_sum_or_error_witness :
    totalCarbon (energies
      [{ processId := "p1", clusterName := "c1", providerName := "AWS",
         instanceSizeName := "M10", region := "US_EAST_1",
         memoryUsageGb := JSNum.num 2, cpuUsage := JSNum.num 1,
         diskSizeGb := JSNum.num 10, nCpu := 2, memoryAvail := 8,
         PUE := JSNum.num (6/5), gCO2ekWh := JSNum.num 475 }])
      = some ((energies
      [{ processId := "p1", clusterName := "c1", providerName := "AWS",
         instanceSizeName := "M10", region := "US_EAST_1",
         memoryUsageGb := JSNum.num 2, cpuUsage := JSNum.num 1,
         diskSizeGb := JSNum.num 10, nCpu := 2, memoryAvail := 8,
         PUE := JSNum.num (6/5), gCO2ekWh := JSNum.num 475 }]).foldl (· + ·) (JSNum.num 0)) :=
  (fleet_total_sum_or_error _).2 (by decide)

/-- C10: averaging an empty datapoint list does not raise: it returns
NaN (the sum-reduction starts at 0 and is divided by length 0), and a
present-but-empty CPU series propagates NaN into the computed
utilization and into the energy value instead of failing. -/
theorem empty_average_nan_propagates :
    getDatapointsAvg [] = JSNum.nan ∧
    (∀ (ms : MeasurementSet) (n : String), n ∈ cpuMetricNames →
      getMeasurement ms n = some [] →
      (∀ m ∈ cpuMetricNames, (getMeasurement ms m).isSome) →
      getCpuUsage ms = some JSNum.nan) ∧
    (∀ p : ProcessUsage, p.cpuUsage = JSNum.nan → energyOf p = JSNum.nan) := by
  refine ⟨getDatapointsAvg_nil, ?_, ?_⟩
  · intro ms n hn hempty hall
    exact cpuUsageLoop_empty_series ms cpuMetricNames (JSNum.num 0) n hn hempty hall
  · intro p hp
    simp [energyOf, hp]

theorem empty_average_nan_propagates_witness :
    getCpuUsage
      { measurements :=
          [{ name := "SYSTEM_NORMALIZED_CPU_USER", dataPoints := [] },
           { name := "SYSTEM_NORMALIZED_CPU_KERNEL", dataPoints := [⟨"t", JSNum.num 1⟩] },
           { name := "SYSTEM_NORMALIZED_CPU_NICE", dataPoints := [⟨"t", JSNum.num 1⟩] },
           { name := "SYSTEM_NORMALIZED_CPU_IOWAIT", dataPoints := [⟨"t", JSNum.num 1⟩] },
           { name := "SYSTEM_NORMALIZED_CPU_IRQ", dataPoints := [⟨"t", JSNum.num 1⟩] },
           { name := "SYSTEM_NORMALIZED_CPU_SOFTIRQ", dataPoints := [⟨"t", JSNum.num 1⟩] },
           { name := "SYSTEM_NORMALIZED_CPU_GUEST", dataPoints := [⟨"t", JSNum.num 1⟩] },
           { name := "SYSTEM_NORMALIZED_CPU_STEAL", dataPoints := [⟨"t", JSNum.num 1⟩] }] }
      = some JSNum.nan ∧
    energyOf
      { processId := "p1", clusterName := "c1", providerName := "AWS",
        instanceSizeName := "M10", region := "US_EAST_1",
        memoryUsageGb := JSNum.num 2, cpuUsage := JSNum.nan,
        diskSizeGb := JSNum.num 10, nCpu := 2, memoryAvail := 8,
        PUE := JSNum.num (6/5), gCO2ekWh := JSNum.num 475 } = JSNum.nan :=
  ⟨empty_average_nan_propagates.2.1 _ "SYSTEM_NORMALIZED_CPU_USER" (by decide) (by decide)
      (by decide),
   empty_average_nan_propagates.2.2 _ rfl⟩

/-- C5: when all eight CPU sub-metric series (user, kernel, nice,
iowait, irq, softirq, guest, steal) are present, the normalized CPU
utilization is the sum of the eight per-metric averages; if any of the
eight named series is absent the computation fails with an error rather
than treating the missing metric as zero. -/
theorem cpu_usage_sum_or_error (ms : MeasurementSet) :
    (∀ d₁ d₂ d₃ d₄ d₅ d₆ d₇ d₈ : List Datapoint,
      getMeasurement ms "SYSTEM_NORMALIZED_CPU_USER" = some d₁ →
      getMeasurement ms "SYSTEM_NORMALIZED_CPU_KERNEL" = some d₂ →
      getMeasurement ms "SYSTEM_NORMALIZED_CPU_NICE" = some d₃ →
      getMeasurement ms "SYSTEM_NORMALIZED_CPU_IOWAIT" = some d₄ →
      getMeasurement ms "SYSTEM_NORMALIZED_CPU_IRQ" = some d₅ →
      getMeasurement ms "SYSTEM_NORMALIZED_CPU_SOFTIRQ" = some d₆ →
      getMeasurement ms "SYSTEM_NORMALIZED_CPU_GUEST" = some d₇ →
      getMeasurement ms "SYSTEM_NORMALIZED_CPU_STEAL" = some d₈ →
      getCpuUsage ms = some (getDatapointsAvg d₁ + getDatapointsAvg d₂ +
        getDatapointsAvg d₃ + getDatapointsAvg d₄ + getDatapointsAvg d₅ +
        getDatapointsAvg d₆ + getDatapointsAvg d₇ + getDatapointsAvg d₈)) ∧
    (∀ n ∈ cpuMetricNames, getMeasurement ms n = none → getCpuUsage ms = none) := by
  constructor
  · intro d₁ d₂ d₃ d₄ d₅ d₆ d₇ d₈ h₁ h₂ h₃ h₄ h₅ h₆ h₇ h₈
    simp [getCpuUsage, cpuMetricNames, cpuUsageLoop, h₁, h₂, h₃, h₄, h₅, h₆, h₇, h₈]
  · intro n hn hmiss
    exact cpuUsageLoop_none ms cpuMetricNames (JSNum.num 0) n hn hmiss

theorem cpu_usage_sum_or_error_witness :
    getCpuUsage
      { measurements :=
          [{ name := "SYSTEM_NORMALIZED_CPU_USER", dataPoints := [⟨"t", JSNum.num 1⟩] },
           { name := "SYSTEM_NORMALIZED_CPU_KERNEL", dataPoints := [⟨"t", JSNum.num 1⟩] },
           { name := "SYSTEM_NORMALIZED_CPU_NICE", dataPoints := [⟨"t", JSNum.num 1⟩] },
           { name := "SYSTEM_NORMALIZED_CPU_IOWAIT", dataPoints := [⟨"t", JSNum.num 1⟩] },
           { name := "SYSTEM_NORMALIZED_CPU_IRQ", dataPoints := [⟨"t", JSNum.num 1⟩] },
           { name := "SYSTEM_NORMALIZED_CPU_SOFTIRQ", dataPoints := [⟨"t", JSNum.num 1⟩] },
           { name := "SYSTEM_NORMALIZED_CPU_GUEST", dataPoints := [⟨"t", JSNum.num 1⟩] },
           { name := "SYSTEM_NORMALIZED_CPU_STEAL", dataPoints := [⟨"t", JSNum.num 1⟩] }] }
      = some (JSNum.num 8) ∧
    getCpuUsage
      { measurements :=
          [{ name := "SYSTEM_NORMALIZED_CPU_KERNEL", dataPoints := [⟨"t", JSNum.num 1⟩] }] }
      = none :=
  ⟨((cpu_usage_sum_or_error _).1 [⟨"t", JSNum.num 1⟩] [⟨"t", JSNum.num 1⟩]
      [⟨"t", JSNum.num 1⟩] [⟨"t", JSNum.num 1⟩] [⟨"t", JSNum.num 1⟩]
      [⟨"t", JSNum.num 1⟩] [⟨"t", JSNum.num 1⟩] [⟨"t", JSNum.num 1⟩]
      (by decide) (by decide) (by decide) (by decide)
      (by decide) (by decide) (by decide) (by decide)).trans
    (by norm_num [getDatapointsAvg, HDiv.hDiv, Div.div, JSNum.div]),
   (cpu_usage_sum_or_error _).2 "SYSTEM_NORMALIZED_CPU_USER" (by decide) (by decide)⟩

theorem energyOf_num (p : ProcessUsage) (u d pue g : ℚ)
    (hu : p.cpuUsage = JSNum.num u) (hd : p.diskSizeGb = JSNum.num d)
    (hp : p.PUE = JSNum.num pue) (hg : p.gCO2ekWh = JSNum.num g) :
    energyOf p = JSNum.num
      (energyFormula GRANULARITY_PARAMS.runningTimeHours p.nCpu u p.memoryAvail d pue g) := by
  simp [energyOf, energyFormula, hu, hd, hp, hg]

/-- C1: the per-process emissions estimate (line 187) equals
runningTimeHours × (cpuCoreCount × 12.4 × cpuUtilization +
memoryCapacityGb × 0.3725 + diskSizeGb × 0.001) × effectivePUE × 0.001 ×
effectiveCarbonIntensity — the formula exactly as the specification
states it — with runningTimeHours fixed at 24 and the constants 12.4,
0.3725 and 0.001 exactly as given. -/
theorem energy_matches_spec_formula (p : ProcessUsage) (u d pue g : ℚ)
    (hu : p.cpuUsage = JSNum.num u) (hd : p.diskSizeGb = JSNum.num d)
    (hp : p.PUE = JSNum.num pue) (hg : p.gCO2ekWh = JSNum.num g) :
    GRANULARITY_PARAMS.runningTimeHours = 24 ∧
    energyOf p = JSNum.num (specEnergy 24 p.nCpu u p.memoryAvail d pue g) := by
  refine ⟨rfl, ?_⟩
  rw [energyOf_num p u d pue g hu hd hp hg]
  rfl

theorem energy_matches_spec_formula_witness :
    energyOf
      { processId := "p1", clusterName := "c1", providerName := "AWS",
        instanceSizeName := "M10", region := "US_EAST_1",
        memoryUsageGb := JSNum.num 2, cpuUsage := JSNum.num 1,
        diskSizeGb := JSNum.num 10, nCpu := 2, memoryAvail := 8,
        PUE := JSNum.num (6/5), gCO2ekWh := JSNum.num 475 }
      = JSNum.num (475209/1250) :=
  ((energy_matches_spec_formula _ 1 10 (6/5) 475 rfl rfl rfl rfl).2).trans
    (by norm_num [specEnergy])

/-- C8: the per-process energy (line 187, read over exact rationals) is
linear in runningTimeHours and linear in diskSizeGb, the diskSizeGb term
carrying the coefficient 0.001 × PUE × 0.001 × CI per hour of running
time. -/
theorem energy_linear_in_time_and_disk (nCpu u mem pue g : ℚ) :
    (∀ t₁ t₂ d : ℚ, energyFormula (t₁ + t₂) nCpu u mem d pue g
        = energyFormula t₁ nCpu u mem d pue g + energyFormula t₂ nCpu u mem d pue g) ∧
    (∀ a t d : ℚ, energyFormula (a * t) nCpu u mem d pue g
        = a * energyFormula t nCpu u mem d pue g) ∧
    (∀ t d₁ d₂ : ℚ, energyFormula t nCpu u mem (d₁ + d₂) pue g
        = energyFormula t nCpu u mem d₁ pue g + energyFormula t nCpu u mem d₂ pue g
          - energyFormula t nCpu u mem 0 pue g) ∧
    (∀ t d : ℚ, energyFormula t nCpu u mem d pue g
        = energyFormula t nCpu u mem 0 pue g + t * d * (0.001 * pue * 0.001 * g)) := by
  refine ⟨?_, ?_, ?_, ?_⟩ <;> intros <;> unfold energyFormula <;> ring

theorem getCpuUsage_congr (ms₁ ms₂ : MeasurementSet)
    (h : ∀ n ∈ cpuMetricNames, getMeasurement ms₁ n = getMeasurement ms₂ n) :
    getCpuUsage ms₁ = getCpuUsage ms₂ := by
  unfold getCpuUsage
  have key : ∀ (names : List String) (acc : JSNum),
      (∀ n ∈ names, getMeasurement ms₁ n = getMeasurement ms₂ n) →
      cpuUsageLoop ms₁ names acc = cpuUsageLoop ms₂ names acc := by
    intro names
    induction names with
    | nil => intro acc _; rfl
    | cons m rest ih =>
      intro acc hh
      have hm := hh m (by simp)
      simp only [cpuUsageLoop, hm]
      cases getMeasurement ms₂ m with
      | none => rfl
      | some dps => exact ih _ (fun n hn => hh n (List.mem_cons_of_mem m hn))
  exact key cpuMetricNames _ h

/-- C9: the per-process energy does not depend on the measured memory
series: for two measurement sets whose CPU series lookups agree and
whose memory-available series are present and non-empty (possibly with
entirely different values), the computed energy is identical, because
the formula uses the hardware profile's memory capacity rather than the
measured average. -/
theorem energy_independent_of_memory_series (hardwareSpec : HardwareSpec) (p : Process)
    (ms₁ ms₂ : MeasurementSet) (d₁ d₂ : List Datapoint)
    (hcpu : ∀ n ∈ cpuMetricNames, getMeasurement ms₁ n = getMeasurement ms₂ n)
    (hm₁ : getMeasurement ms₁ memoryAvailableMetric = some d₁)
    (hm₂ : getMeasurement ms₂ memoryAvailableMetric = some d₂)
    (hne₁ : d₁ ≠ []) (hne₂ : d₂ ≠ []) :
    (processEstimate hardwareSpec p ms₁).map energyOf
      = (processEstimate hardwareSpec p ms₂).map energyOf := by
  have hcu := getCpuUsage_congr ms₁ ms₂ hcpu
  unfold processEstimate getMemoryUsage
  rw [hm₁, hm₂, hcu]
  cases getCpuUsage ms₂ with
  | none => rfl
  | some u =>
    cases lookupHardware hardwareSpec p.providerSettings.instanceSizeName
        p.providerSettings.providerName with
    | none => rfl
    | some hw => simp [energyOf]

theorem energy_independent_of_memory_series_witness :
    (processEstimate [("M10", [("AWS", ⟨2, 8⟩)])]
      { id := "h1", cluster := "c1",
        providerSettings :=
          { providerName := "AWS", regionName := "US_EAST_1", instanceSizeName := "M10" },
        diskSizeGb := JSNum.num 10, PUE := JSNum.num (6/5), gCO2ekWh := JSNum.num 475 }
      { measurements :=
          [{ name := "SYSTEM_MEMORY_AVAILABLE", dataPoints := [⟨"t", JSNum.num 1000⟩] },
           { name := "SYSTEM_NORMALIZED_CPU_USER", dataPoints := [⟨"t", JSNum.num 1⟩] },
           { name := "SYSTEM_NORMALIZED_CPU_KERNEL", dataPoints := [⟨"t", JSNum.num 1⟩] },
           { name := "SYSTEM_NORMALIZED_CPU_NICE", dataPoints := [⟨"t", JSNum.num 1⟩] },
           { name := "SYSTEM_NORMALIZED_CPU_IOWAIT", dataPoints := [⟨"t", JSNum.num 1⟩] },
           { name := "SYSTEM_NORMALIZED_CPU_IRQ", dataPoints := [⟨"t", JSNum.num 1⟩] },
           { name := "SYSTEM_NORMALIZED_CPU_SOFTIRQ", dataPoints := [⟨"t", JSNum.num 1⟩] },
           { name := "SYSTEM_NORMALIZED_CPU_GUEST", dataPoints := [⟨"t", JSNum.num 1⟩] },
           { name := "SYSTEM_NORMALIZED_CPU_STEAL", dataPoints := [⟨"t", JSNum.num 1⟩] }] }).map
        energyOf
      = (processEstimate [("M10", [("AWS", ⟨2, 8⟩)])]
      { id := "h1", cluster := "c1",
        providerSettings :=
          { providerName := "AWS", regionName := "US_EAST_1", instanceSizeName := "M10" },
        diskSizeGb := JSNum.num 10, PUE := JSNum.num (6/5), gCO2ekWh := JSNum.num 475 }
      { measurements :=
          [{ name := "SYSTEM_MEMORY_AVAILABLE", dataPoints := [⟨"t", JSNum.num 555555⟩] },
           { name := "SYSTEM_NORMALIZED_CPU_USER", dataPoints := [⟨"t", JSNum.num 1⟩] },
           { name := "SYSTEM_NORMALIZED_CPU_KERNEL", dataPoints := [⟨"t", JSNum.num 1⟩] },
           { name := "SYSTEM_NORMALIZED_CPU_NICE", dataPoints := [⟨"t", JSNum.num 1⟩] },
           { name := "SYSTEM_NORMALIZED_CPU_IOWAIT", dataPoints := [⟨"t", JSNum.num 1⟩] },
           { name := "SYSTEM_NORMALIZED_CPU_IRQ", dataPoints := [⟨"t", JSNum.num 1⟩] },
           { name := "SYSTEM_NORMALIZED_CPU_SOFTIRQ", dataPoints := [⟨"t", JSNum.num 1⟩] },
           { name := "SYSTEM_NORMALIZED_CPU_GUEST", dataPoints := [⟨"t", JSNum.num 1⟩] },
           { name := "SYSTEM_NORMALIZED_CPU_STEAL", dataPoints := [⟨"t", JSNum.num 1⟩] }] }).map
        energyOf :=
  energy_independent_of_memory_series _ _ _ _ [⟨"t", JSNum.num 1000⟩] [⟨"t", JSNum.num 555555⟩]
    (by decide) (by decide) (by decide) (by decide) (by decide)

theorem defaultPUE_cases (p : String) :
    defaultPUE p = (if p = "GCP" then 1.11 else if p = "AZURE" then 1.125
      else if p = "AWS" then 1.2 else 1.67) := by
  unfold defaultPUE
  by_cases h1 : p = "GCP" <;> by_cases h2 : p = "AZURE" <;> by_cases h3 : p = "AWS" <;>
    simp_all

/-- C2: when no datacenter row matches (provider equal after ASCII
upper-casing, region equal after upper-casing and stripping '_', '-' and
' '), the resolved carbon intensity is the fallback 475 and the resolved
PUE is the provider default: 1.11 for GCP, 1.125 for AZURE, 1.2 for AWS
(matched case-insensitively) and 1.67 for any other provider name,
whatever the tables contain. -/
theorem no_datacenter_match_defaults (cloudProviders : List CloudProviderRow)
    (ciAggregated : List CIRow) (provider region : String)
    (h : ∀ c ∈ cloudProviders, ¬(jsToUpper c.provider = jsToUpper provider ∧
      normalizeRegion c.region = normalizeRegion region)) :
    resolvePueCi cloudProviders ciAggregated provider region
      = (JSNum.num (if jsToUpper provider = "GCP" then 1.11
          else if jsToUpper provider = "AZURE" then 1.125
          else if jsToUpper provider = "AWS" then 1.2 else 1.67),
         JSNum.num 475) := by
  have hfind : findDatacenter cloudProviders (jsToUpper provider) (jsToUpper region) = none := by
    unfold findDatacenter
    rw [List.find?_eq_none]
    intro c hc
    have hcc := h c hc
    simp only [normalizeRegion] at hcc
    simp only [Bool.and_eq_true, beq_iff_eq, not_and]
    intro h1 h2
    exact hcc ⟨h1, h2⟩
  simp only [resolvePueCi, hfind]
  rw [defaultPUE_cases]

theorem no_datacenter_match_defaults_witness :
    resolvePueCi [{ provider := "gcp", region := "europe-west1", ciKey := "BE",
                    pueOverride := "1.09" }] [] "aws" "us-east-1"
      = (JSNum.num (if jsToUpper "aws" = "GCP" then 1.11
          else if jsToUpper "aws" = "AZURE" then 1.125
          else if jsToUpper "aws" = "AWS" then 1.2 else 1.67),
         JSNum.num 475) :=
  no_datacenter_match_defaults _ _ "aws" "us-east-1" (by decide)

/-- C3: when a datacenter row matches, a non-empty pueOverride column
replaces the provider-default PUE with that value parsed as a float, and
when the row's carbon-intensity join key has no row in the CI table, the
carbon intensity falls back to 475 while the PUE override is still
applied. -/
theorem datacenter_match_override_and_ci_fallback (cloudProviders : List CloudProviderRow)
    (ciAggregated : List CIRow) (provider region : String) (cp : CloudProviderRow)
    (hfind : findDatacenter cloudProviders (jsToUpper provider) (jsToUpper region) = some cp)
    (hover : cp.pueOverride ≠ "") :
    (resolvePueCi cloudProviders ciAggregated provider region).1 = jsParseFloat cp.pueOverride ∧
    ((∀ r ∈ ciAggregated, r.key ≠ cp.ciKey) →
      (resolvePueCi cloudProviders ciAggregated provider region).2 = JSNum.num 475) := by
  constructor
  · simp [resolvePueCi, hfind, hover]
  · intro hci
    have hnone : ciAggregated.find? (fun ci => ci.key == cp.ciKey) = none := by
      rw [List.find?_eq_none]
      intro r hr
      simpa using hci r hr
    simp [resolvePueCi, hfind, hnone]

theorem datacenter_match_override_and_ci_fallback_witness :
    (resolvePueCi [{ provider := "aws", region := "us_east_1", ciKey := "US",
                     pueOverride := "1.3" }] [] "AWS" "useast1").1 = jsParseFloat "1.3" ∧
    (resolvePueCi [{ provider := "aws", region := "us_east_1", ciKey := "US",
                     pueOverride := "1.3" }] [] "AWS" "useast1").2 = JSNum.num 475 :=
  ⟨(datacenter_match_override_and_ci_fallback _ _ "AWS" "useast1"
      { provider := "aws", region := "us_east_1", ciKey := "US", pueOverride := "1.3" }
      (by decide) (by decide)).1,
   (datacenter_match_override_and_ci_fallback _ _ "AWS" "useast1"
      { provider := "aws", region := "us_east_1", ciKey := "US", pueOverride := "1.3" }
      (by decide) (by decide)).2 (by simp)⟩

theorem findDatacenter_eq_spec (table : List CloudProviderRow) (p r : String) :
    findDatacenter table (jsToUpper p) (jsToUpper r) = specFirstMatch table p r := by
  induction table with
  | nil => rfl
  | cons c rest ih =>
    rw [specFirstMatch]
    by_cases h : jsToUpper c.provider = jsToUpper p ∧
        normalizeRegion c.region = normalizeRegion r
    · rw [if_pos h]
      unfold findDatacenter
      apply List.find?_cons_of_pos
      simp only [normalizeRegion] at h
      simp [h.1, h.2]
    · rw [if_neg h]
      rw [← ih]
      unfold findDatacenter
      apply List.find?_cons_of_neg
      simp only [normalizeRegion] at h
      simp only [Bool.and_eq_true, beq_iff_eq, not_and]
      intro h1 h2
      exact h ⟨h1, h2⟩

/-- C4: region normalization (upper-casing plus removal of '_', '-' and
' ') is idempotent; the datacenter lookup depends on the region spelling
only through its normal form, so "us-east-1", "US_EAST_1" and "useast1"
(and any two spellings with equal normal forms) resolve to the same
record for every table; and the resolved record is the first record in
table order whose provider matches case-insensitively and whose
normalized region matches. -/
theorem region_normalization_invariance (table : List CloudProviderRow) (provider : String) :
    (∀ s, normalizeRegion (normalizeRegion s) = normalizeRegion s) ∧
    (∀ r₁ r₂, normalizeRegion r₁ = normalizeRegion r₂ →
      findDatacenter table (jsToUpper provider) (jsToUpper r₁)
        = findDatacenter table (jsToUpper provider) (jsToUpper r₂)) ∧
    (findDatacenter table (jsToUpper provider) (jsToUpper "us-east-1")
        = findDatacenter table (jsToUpper provider) (jsToUpper "US_EAST_1") ∧
      findDatacenter table (jsToUpper provider) (jsToUpper "useast1")
        = findDatacenter table (jsToUpper provider) (jsToUpper "US_EAST_1")) ∧
    (∀ r, findDatacenter table (jsToUpper provider) (jsToUpper r)
        = specFirstMatch table provider r) := by
  have inv : ∀ r₁ r₂, normalizeRegion r₁ = normalizeRegion r₂ →
      findDatacenter table (jsToUpper provider) (jsToUpper r₁)
        = findDatacenter table (jsToUpper provider) (jsToUpper r₂) := by
    intro r₁ r₂ h
    unfold findDatacenter
    unfold normalizeRegion at h
    rw [h]
  exact ⟨normalizeRegion_idem, inv, ⟨inv _ _ (by decide), inv _ _ (by decide)⟩,
    findDatacenter_eq_spec table provider⟩

theorem region_normalization_invariance_witness :
    normalizeRegion (normalizeRegion "us-east-1") = normalizeRegion "us-east-1" ∧
    findDatacenter [{ provider := "aws", region := "US_EAST_1", ciKey := "US",
                      pueOverride := "" }] (jsToUpper "aws") (jsToUpper "us-east-1")
      = findDatacenter [{ provider := "aws", region := "US_EAST_1", ciKey := "US",
                          pueOverride := "" }] (jsToUpper "aws") (jsToUpper "useast1") ∧
    findDatacenter [{ provider := "aws", region := "US_EAST_1", ciKey := "US",
                      pueOverride := "" }] (jsToUpper "aws") (jsToUpper "us-east-1")
      = specFirstMatch [{ provider := "aws", region := "US_EAST_1", ciKey := "US",
                          pueOverride := "" }] "aws" "us-east-1" :=
  ⟨(region_normalization_invariance [] "aws").1 "us-east-1",
   (region_normalization_invariance
      [{ provider := "aws", region := "US_EAST_1", ciKey := "US",
         pueOverride := "" }] "aws").2.1 "us-east-1" "useast1" (by decide),
   (region_normalization_invariance
      [{ provider := "aws", region := "US_EAST_1", ciKey := "US",
         pueOverride := "" }] "aws").2.2.2 "us-east-1"⟩
